import Mathlib

/-!
# Verification of the CURSOR supervisor decision engine

A shallow embedding of the intervention decision engine of `src/main.py`
(class `CursorSupervisor`): content validation, duplicate/repetition
suppression, cooldown and in-flight lock management, stuck detection, and
the per-tick orchestration loop `monitoring_cycle`.

Modelling conventions:
* Wall-clock time (`time.time()`) is modelled as a `Nat` number of seconds;
  every duration in the source is compared against whole-second thresholds.
* Python strings are Lean `String`s; `len` is `String.length`,
  `text.lower()` is a character-wise `Char.toLower` map, and `a in b` is a
  substring test (`strContains`).
* The MD5 hex digest (`hashlib.md5(...).hexdigest()`) is modelled as an
  injective digest function; the digest of a text is represented by the
  normalized text itself (`md5_hexdigest` is the identity).  Every theorem
  that depends only on digest-equality propagation is stated over an
  arbitrary digest function.
* The Python `dict` `content_repetition_count` is an insertion-ordered
  association list; the Python `set` `processed_message_hashes` is a
  duplicate-free list in insertion order (set iteration order, which the
  source only uses when trimming, is refined to insertion order).
* External collaborators (screen capture, OCR, the GPT instruction
  generator, the keyboard executor) are inputs of the model: each tick
  receives the extracted text, the generator's answer and the executor's
  success flag as parameters.
-/

namespace CursorSupervisor

/-! ## String helpers (Python primitives) -/

/-- `text.lower()`: character-wise lower casing. -/
def lowerStr (s : String) : String := (s.toList.map Char.toLower).asString

/-- Python `text.strip()`: remove leading and trailing whitespace. -/
def strTrim (s : String) : String :=
  ((s.toList.dropWhile Char.isWhitespace).reverse.dropWhile Char.isWhitespace).reverse.asString

/-- Does the character list `p` start the character list given second
(`startswith`)? -/
def listStartsWith : List Char → List Char → Bool
  | [], _ => true
  | _ :: _, [] => false
  | p :: ps, c :: cs => p == c && listStartsWith ps cs

/-- Does the pattern occur as a contiguous run inside the list?  Backs the
Python substring test `pat in s`. -/
def listOccurs (pat : List Char) : List Char → Bool
  | [] => listStartsWith pat []
  | c :: cs => listStartsWith pat (c :: cs) || listOccurs pat cs

/-- Python `pat in s` on strings. -/
def strContains (s pat : String) : Bool := listOccurs pat.toList s.toList

/-! ## Keyword tables (`CursorSupervisor.__init__` and call sites) -/

/-- `self.processing_keywords` (main.py:84). -/
def processing_keywords : List String :=
  ["正在处理", "修复中", "分析中", "生成中", "处理错误",
   "working on", "fixing", "analyzing", "generating", "processing"]

/-- `self.review_keywords` (main.py:88). -/
def review_keywords : List String :=
  ["review changes", "审查变更", "检查修改", "查看变更",
   "Review Changes", "review the changes", "请审查"]

/-- `review_keywords_extended` (main.py:1015). -/
def review_keywords_extended : List String :=
  review_keywords ++
  ["review the changes", "审查修改", "查看更改", "检查变更",
   "review code", "代码审查", "Review Code"]

/-- `completion_signals` (main.py:1048). -/
def completion_signals : List String :=
  ["完成", "done", "finished", "ready", "实现完毕", "运行完成",
   "执行完毕", "测试通过", "部署成功", "任务完成", "处理完成"]

/-- `question_patterns` (main.py:1059). -/
def question_patterns : List String :=
  ["你希望", "需要我", "是否需要", "还有什么", "接下来", "下一步",
   "你想要", "要不要", "可以继续", "请告诉我"]

/-- `invalid_patterns` (main.py:1323). -/
def invalid_patterns : List String :=
  ["dark_content", "detected_features:", "high_brightness_content",
   "text_like_patterns", "stable_content", "unknown_content"]

/-- `processing_indicators` (main.py:990). -/
def processing_indicators : List String :=
  ["生成", "处理", "分析", "创建", "正在", "generating", "processing", "creating"]

/-- `pm_reply_indicators` (main.py:1376). -/
def pm_reply_indicators : List String :=
  ["收到", "明白了", "好的，我来", "了解，接下来", "收到指令", "我会"]

/-- Technical words excluded by the product-manager self-reply heuristic
(main.py:1383). -/
def pm_tech_words : List String :=
  ["pygame", "python", "import", "class", "def", "function",
   "代码", "文件", "实现", "开发", "创建", "修改", "Snake", "game"]

/-! ## Supervisor state (`CursorSupervisor.__init__`, main.py:51-113) -/

/-- The mutable fields of `CursorSupervisor` that the decision engine reads
or writes.  Fields that only feed logging, GUI automation or file I/O are
omitted. -/
structure SupervisorState where
  /-- `self.is_processing_message` (main.py:94): in-flight dispatch lock. -/
  is_processing_message : Bool
  /-- `self.last_instruction_time` (main.py:96). -/
  last_instruction_time : Nat
  /-- `self.instruction_cooldown` (main.py:97), default 8. -/
  instruction_cooldown : Nat
  /-- `self.processed_message_hashes` (main.py:98): set of digests. -/
  processed_message_hashes : List String
  /-- `self.max_processed_hashes` (main.py:99), default 50. -/
  max_processed_hashes : Nat
  /-- `self.content_repetition_count` (main.py:102): dict text -> count. -/
  content_repetition_count : List (String × Nat)
  /-- `self.max_same_content_processing` (main.py:103), default 3. -/
  max_same_content_processing : Nat
  /-- `self.last_processed_content_hash` (main.py:95). -/
  last_processed_content_hash : Option String
  /-- `self.last_sent_instruction_hash` (main.py:104). -/
  last_sent_instruction_hash : Option String
  /-- `self.last_instruction_sent` (main.py:108). -/
  last_instruction_sent : String
  /-- `self.last_dialog_content` (main.py:79). -/
  last_dialog_content : String
  /-- `self.dialog_history` (main.py:80); entries timestamp × text. -/
  dialog_history : List (Nat × String)
  /-- `self.last_content_change_time` (main.py:83). -/
  last_content_change_time : Nat
  /-- `self.last_progress_time` (main.py:112). -/
  last_progress_time : Nat
  /-- `self.max_stuck_time` (main.py:113), default 120. -/
  max_stuck_time : Nat
  /-- `self.stuck_detection_time` (main.py:65), default 50. -/
  stuck_detection_time : Nat
  /-- `self.repeated_content_count` (main.py:2267). -/
  repeated_content_count : Nat
  /-- `self.last_repeated_content_time` (main.py:2268). -/
  last_repeated_content_time : Nat
deriving Repr, DecidableEq

/-- The state right after `CursorSupervisor.__init__` when the process
starts at time `t0`. -/
def initState (t0 : Nat) : SupervisorState where
  is_processing_message := false
  last_instruction_time := 0
  instruction_cooldown := 8
  processed_message_hashes := []
  max_processed_hashes := 50
  content_repetition_count := []
  max_same_content_processing := 3
  last_processed_content_hash := none
  last_sent_instruction_hash := none
  last_instruction_sent := ""
  last_dialog_content := ""
  dialog_history := []
  last_content_change_time := t0
  last_progress_time := t0
  max_stuck_time := 120
  stuck_detection_time := 50
  repeated_content_count := 0
  last_repeated_content_time := t0

/-! ## Fingerprinting (main.py:1414-1419) -/

/-- The normalization inside `calculate_content_hash`:
`''.join(text.split()).lower()` removes every whitespace character and then
lower-cases. -/
def normalizeForHash (text : String) : String :=
  ((text.toList.filter (fun c => !c.isWhitespace)).map Char.toLower).asString

/-- `hashlib.md5(...).hexdigest()`, modelled as an injective digest: the
digest of a normalized text is the normalized text itself. -/
def md5_hexdigest (normalized : String) : String := normalized

/-- `CursorSupervisor.calculate_content_hash` (main.py:1414), parametric in
the digest function so that digest-equality facts hold for the real MD5 as
well. -/
def calculate_content_hash (md5 : String → String) (text : String) : String :=
  md5 (normalizeForHash text)

/-- The concrete fingerprint used by the state machine. -/
def contentHash (text : String) : String :=
  calculate_content_hash md5_hexdigest text

/-! ## Similarity (main.py:1421-1436) -/

/-- `CursorSupervisor.calculate_content_similarity`: the count of
positionally equal characters (over `zip`) divided by the larger length;
`0.0` when either argument is empty.  The two inner `len == 0` branches of
the source are kept even though the first guard already subsumes them.
The division is written `mkRat a b`, which equals `(a : ℚ) / (b : ℚ)`
because the divisor is positive on this branch. -/
def calculate_content_similarity (t1 t2 : String) : ℚ :=
  if t1.length == 0 || t2.length == 0 then 0
  else if t1.length == 0 && t2.length == 0 then 1
  else if t1.length == 0 || t2.length == 0 then 0
  else
    mkRat (((t1.toList.zip t2.toList).filter (fun p => p.1 == p.2)).length)
      (max t1.length t2.length)

/-! ## Validation (main.py:1317-1333) -/

/-- `CursorSupervisor.is_valid_content`: rejects text shorter than 10
characters after trimming and text containing an OCR-failure marker. -/
def is_valid_content (text : String) : Bool :=
  if text.length == 0 || (strTrim text).length < 10 then false
  else !(invalid_patterns.any (fun p => strContains (lowerStr text) p))

/-! ## Signal classifiers (main.py:966-1069, 1866-1926) -/

/-- `CursorSupervisor.is_cursor_processing_error` (main.py:966): the busy
classifier.  Reads `last_dialog_content` for the growth check. -/
def is_cursor_processing_error (s : SupervisorState) (text : String) : Bool :=
  if text.length == 0 then false
  else if strContains (lowerStr text) "generating" then true
  else if processing_keywords.any (fun k => strContains (lowerStr text) (lowerStr k)) then true
  else if strContains text "..." || strContains text "。。。" then true
  else if decide (s.last_dialog_content.length + 50 < text.length) &&
          processing_indicators.any (fun k => strContains (lowerStr text) k) then true
  else false

/-- `CursorSupervisor.has_review_changes_signal` (main.py:996). -/
def has_review_changes_signal (text : String) : Bool :=
  if text.length == 0 then false
  else if strContains (lowerStr text) "review changes" then true
  else review_keywords_extended.any (fun k => strContains (lowerStr text) (lowerStr k))

/-- `CursorSupervisor.is_cursor_response_finished` (main.py:1032): the
completed classifier (review marker, completion phrase, question prompt). -/
def is_cursor_response_finished (text : String) : Bool :=
  if text.length == 0 then false
  else if strContains (lowerStr text) "review changes" then true
  else if completion_signals.any (fun k => strContains (lowerStr text) k) then true
  else question_patterns.any (fun k => strContains (lowerStr text) k)

/-- `CursorSupervisor.is_content_stuck` (main.py:1866): invalid text is
never stuck; identical text is stuck once its stable duration exceeds 60
seconds when the text contains "generating" and `stuck_detection_time`
otherwise; growing, shrinking or otherwise changed text resets the
stability timer and is not stuck. -/
def is_content_stuck (s : SupervisorState) (now : Nat) (text : String) :
    Bool × SupervisorState :=
  if !is_valid_content text then (false, s)
  else if text == s.last_dialog_content then
    let threshold := if strContains (lowerStr text) "generating" then 60
                     else s.stuck_detection_time
    (decide (threshold < now - s.last_content_change_time), s)
  else if decide (s.last_dialog_content.length < text.length) then
    (false, { s with last_content_change_time := now })
  else if decide (text.length < s.last_dialog_content.length) then
    (false, { s with last_content_change_time := now })
  else
    (false, { s with last_content_change_time := now })

/-! ## Duplicate & repetition guard (main.py:1335-1412) -/

/-- Lookup in the insertion-ordered model of a Python `dict`. -/
def lookupCount : List (String × Nat) → String → Option Nat
  | [], _ => none
  | (k, v) :: rest, key => if k == key then some v else lookupCount rest key

/-- In-place update of the model of a Python `dict` (insertion position of
an existing key is preserved; a new key is appended). -/
def setCount : List (String × Nat) → String → Nat → List (String × Nat)
  | [], key, v => [(key, v)]
  | (k, w) :: rest, key, v =>
      if k == key then (k, v) :: rest else (k, w) :: setCount rest key v

/-- The product-manager self-reply heuristic `is_pm_reply`
(main.py:1376-1387): a short text containing a confirmation phrase and no
technical word. -/
def is_pm_reply (text : String) : Bool :=
  decide (text.length < 50) &&
  pm_reply_indicators.any (fun k => strContains text k) &&
  !(pm_tech_words.any (fun k => strContains text k))

/-- Trimming of `content_repetition_count` (main.py:1400-1405): once the
dict holds more than 100 entries, keep the 50 most recent. -/
def trimRepetition (s : SupervisorState) : SupervisorState :=
  if decide (100 < s.content_repetition_count.length) then
    { s with content_repetition_count :=
        s.content_repetition_count.drop (s.content_repetition_count.length - 50) }
  else s

/-- Checks 6-9 of `is_duplicate_processing` (main.py:1367-1408): the echo
check, the self-reply heuristic, the near-duplicate similarity check, and
(on the non-duplicate exit path) the repetition-dict trim. -/
def duplicate_tail (s : SupervisorState) (text : String) : Bool × SupervisorState :=
  if decide (20 < s.last_instruction_sent.length) &&
     strContains text s.last_instruction_sent then (true, s)
  else if is_pm_reply text then (true, s)
  else if s.last_processed_content_hash.isSome &&
          decide (mkRat 99 100 < calculate_content_similarity text s.last_dialog_content) then
    (true, s)
  else (false, trimRepetition s)

/-- `CursorSupervisor.is_duplicate_processing` (main.py:1335): the
suppression check.  Returns the verdict together with the updated state
(the repetition counter is incremented or created on every call that gets
past the first three checks).  The `except` wrapper of the source cannot
fire in this total model. -/
def is_duplicate_processing (s : SupervisorState) (now : Nat) (text : String) :
    Bool × SupervisorState :=
  if s.is_processing_message then (true, s)
  else if decide (now - s.last_instruction_time < s.instruction_cooldown) then (true, s)
  else if contentHash text ∈ s.processed_message_hashes then (true, s)
  else
    match lookupCount s.content_repetition_count text with
    | some n =>
        if decide (s.max_same_content_processing < n + 1) then
          (true, { s with content_repetition_count :=
                     setCount s.content_repetition_count text (n + 1) })
        else
          duplicate_tail
            { s with content_repetition_count :=
                setCount s.content_repetition_count text (n + 1) } text
    | none =>
        duplicate_tail
          { s with content_repetition_count :=
              s.content_repetition_count ++ [(text, 1)] } text

/-- `CursorSupervisor.mark_content_as_processed` (main.py:1438): records
the text's fingerprint, remembers it as the last processed hash, stores
the digest of the last sent instruction, and halves the fingerprint set
when it outgrows `max_processed_hashes`. -/
def mark_content_as_processed (s : SupervisorState) (content : String) : SupervisorState :=
  let h := contentHash content
  let hashes := if h ∈ s.processed_message_hashes then s.processed_message_hashes
                else s.processed_message_hashes ++ [h]
  let s1 := { s with
    processed_message_hashes := hashes
    last_processed_content_hash := some h
    last_sent_instruction_hash :=
      if s.last_instruction_sent.length == 0 then s.last_sent_instruction_hash
      else some (contentHash s.last_instruction_sent) }
  if decide (s1.max_processed_hashes < s1.processed_message_hashes.length) then
    { s1 with processed_message_hashes :=
        (s1.processed_message_hashes.drop
          (s1.processed_message_hashes.length - s1.max_processed_hashes / 2)) }
  else s1

/-! ## Substantially-same detection (main.py:2220-2296) -/

/-- The `normalize_text` closure of `is_substantially_same_content`
(main.py:2227): lower-case, then keep only word characters (letters,
digits, underscore) and CJK ideographs.  ASCII letters stand in for the
Unicode word class of Python's `\w`. -/
def normalizeSubstantial (text : String) : String :=
  ((lowerStr text).toList.filter
    (fun c => c.isAlphanum || c == '_' ||
      (decide (0x4e00 ≤ c.toNat) && decide (c.toNat ≤ 0x9fff)))).asString

/-- `CursorSupervisor.is_substantially_same_content` (main.py:2220). -/
def is_substantially_same_content (s : SupervisorState) (text : String) : Bool :=
  if text.length == 0 || s.last_dialog_content.length == 0 then false
  else
    let nc := normalizeSubstantial text
    let nl := normalizeSubstantial s.last_dialog_content
    if nc == nl then true
    else if decide (mkRat 9 10 < calculate_content_similarity nc nl) then true
    else if decide (50 < min nc.length nl.length) then
      strContains nl nc || strContains nc nl
    else false

/-- `CursorSupervisor.handle_repeated_content` (main.py:2262), without the
polling pause: only the counter bookkeeping touches supervisor state. -/
def handle_repeated_content (s : SupervisorState) (now : Nat) : SupervisorState :=
  let c := s.repeated_content_count + 1
  if decide (5 ≤ c) then { s with repeated_content_count := 0 }
  else if decide (600 < now - s.last_repeated_content_time) then
    { s with repeated_content_count := 0, last_repeated_content_time := now }
  else { s with repeated_content_count := c }

/-! ## Dialog history (main.py:1282-1315) -/

/-- `CursorSupervisor.update_dialog_history`: empty or invalid text is
ignored; changed text resets the stability timer, is appended to the
bounded history and becomes `last_dialog_content`.  The conversation-turn
bookkeeping (`manage_conversation_turns`) touches no field any claim
reads and is omitted. -/
def update_dialog_history (s : SupervisorState) (now : Nat) (text : String) :
    SupervisorState :=
  if text.length == 0 then s
  else if !is_valid_content text then s
  else if !(text == s.last_dialog_content) then
    let hist := s.dialog_history ++ [(now, text)]
    let hist1 := if decide (20 < hist.length) then hist.drop (hist.length - 15) else hist
    { s with last_content_change_time := now
             dialog_history := hist1
             last_dialog_content := text }
  else s

/-! ## Intervention handler (main.py:633-703) -/

/-- The fallback instruction substituted when the generator returns empty
or short output (main.py:661). -/
def fallback_instruction (intervention_type : String) : String :=
  "根据当前状态，建议继续推进开发。请告诉我你需要什么帮助？(" ++ intervention_type ++ ")"

/-- `CursorSupervisor.handle_gpt_content_analysis_intervention`
(main.py:633).  `pm0` is the external generator's answer and `ok` the
executor's success flag.  Returns the new state and whether this
invocation dispatched (`false` on the contended early return).  The
`finally` block of the source clears `is_processing_message` on every exit
path, including the contended one. -/
def handle_gpt_content_analysis_intervention (s : SupervisorState) (now : Nat)
    (text pm0 : String) (intervention_type : String) (ok : Bool) :
    SupervisorState × Bool :=
  if s.is_processing_message then
    ({ s with is_processing_message := false }, false)
  else
    let s1 := mark_content_as_processed { s with is_processing_message := true } text
    let pm := if pm0.length == 0 || (strTrim pm0).length < 10
              then fallback_instruction intervention_type else pm0
    let s2 := if ok then
        { s1 with last_instruction_sent := pm
                  last_instruction_time := now
                  last_content_change_time := now
                  last_progress_time := now }
      else s1
    ({ s2 with is_processing_message := false }, true)

/-! ## Per-tick orchestration (main.py:493-631) -/

/-- The outcome of one `monitoring_cycle` tick. -/
inductive TickOutcome where
  /-- The extracted text failed `is_valid_content`; the tick is skipped. -/
  | invalid : TickOutcome
  /-- `is_duplicate_processing` suppressed the tick. -/
  | suppressed : TickOutcome
  /-- The forced-progress valve fired (`force_progress`). -/
  | forced : TickOutcome
  /-- Substantially-same content timed out (`timeout_intervention`). -/
  | timeoutSame : TickOutcome
  /-- Substantially-same content below the timeout; `handle_repeated_content` ran. -/
  | repeatedSame : TickOutcome
  /-- A classification-driven intervention with the given `intervention_type`. -/
  | intervened : String → TickOutcome
  /-- No signal; the tick ends without intervention. -/
  | idle : TickOutcome
deriving Repr, DecidableEq

/-- The decision ladder of `monitoring_cycle` (main.py:586-614): review
signal first, then the busy guard, then stuck, then the completed
classifier. -/
def decide_intervention (has_review generating stuck finished : Bool) : Option String :=
  if has_review then some "review_changes_completed"
  else if generating then none
  else if stuck then some "content_timeout_analysis"
  else if finished && !generating then some "response_completed"
  else none

/-- `CursorSupervisor.monitoring_cycle` (main.py:493) from the point where
the extracted text is available.  `pm` and `ok` parametrize the external
generator and executor used if an intervention is dispatched this tick. -/
def monitoring_cycle (s : SupervisorState) (now : Nat) (text pm : String) (ok : Bool) :
    SupervisorState × TickOutcome :=
  if !is_valid_content text then (s, TickOutcome.invalid)
  else
    match is_duplicate_processing s now text with
    | (true, s1) =>
        if decide (s1.max_stuck_time < now - s1.last_progress_time) then
          ((handle_gpt_content_analysis_intervention
              { s1 with processed_message_hashes := []
                        content_repetition_count := []
                        is_processing_message := false
                        last_progress_time := now }
              now text pm "force_progress" ok).1,
           TickOutcome.forced)
        else (s1, TickOutcome.suppressed)
    | (false, s1) =>
        if is_substantially_same_content s1 text then
          if decide (60 < now - s1.last_content_change_time) then
            ((handle_gpt_content_analysis_intervention s1 now text pm
                "timeout_intervention" ok).1,
             TickOutcome.timeoutSame)
          else (handle_repeated_content s1 now, TickOutcome.repeatedSame)
        else
          match is_content_stuck (update_dialog_history s1 now text) now text with
          | (stuck, s3) =>
            match decide_intervention (has_review_changes_signal text)
                    (is_cursor_processing_error (update_dialog_history s1 now text) text)
                    stuck (is_cursor_response_finished text) with
            | some reason =>
                ((handle_gpt_content_analysis_intervention s3 now text pm reason ok).1,
                 TickOutcome.intervened reason)
            | none => (s3, TickOutcome.idle)

/-- Does a tick outcome dispatch an intervention? -/
def TickOutcome.firesIntervention : TickOutcome → Bool
  | TickOutcome.forced => true
  | TickOutcome.timeoutSame => true
  | TickOutcome.intervened _ => true
  | _ => false

/-! ## Frame lemmas: which fields each operation can touch -/

theorem dup_snd_is_processing_message (s : SupervisorState) (now : Nat) (t : String) :
    (is_duplicate_processing s now t).2.is_processing_message = s.is_processing_message := by
  unfold is_duplicate_processing duplicate_tail trimRepetition
  repeat' split
  all_goals rfl

theorem dup_snd_last_progress_time (s : SupervisorState) (now : Nat) (t : String) :
    (is_duplicate_processing s now t).2.last_progress_time = s.last_progress_time := by
  unfold is_duplicate_processing duplicate_tail trimRepetition
  repeat' split
  all_goals rfl

theorem dup_snd_max_stuck_time (s : SupervisorState) (now : Nat) (t : String) :
    (is_duplicate_processing s now t).2.max_stuck_time = s.max_stuck_time := by
  unfold is_duplicate_processing duplicate_tail trimRepetition
  repeat' split
  all_goals rfl

theorem dup_snd_processed (s : SupervisorState) (now : Nat) (t : String) :
    (is_duplicate_processing s now t).2.processed_message_hashes =
      s.processed_message_hashes := by
  unfold is_duplicate_processing duplicate_tail trimRepetition
  repeat' split
  all_goals rfl

theorem dup_snd_max_processed (s : SupervisorState) (now : Nat) (t : String) :
    (is_duplicate_processing s now t).2.max_processed_hashes = s.max_processed_hashes := by
  unfold is_duplicate_processing duplicate_tail trimRepetition
  repeat' split
  all_goals rfl

theorem udh_is_processing_message (s : SupervisorState) (now : Nat) (t : String) :
    (update_dialog_history s now t).is_processing_message = s.is_processing_message := by
  unfold update_dialog_history
  repeat' split
  all_goals rfl

theorem udh_processed (s : SupervisorState) (now : Nat) (t : String) :
    (update_dialog_history s now t).processed_message_hashes =
      s.processed_message_hashes := by
  unfold update_dialog_history
  repeat' split
  all_goals rfl

theorem udh_max_processed (s : SupervisorState) (now : Nat) (t : String) :
    (update_dialog_history s now t).max_processed_hashes = s.max_processed_hashes := by
  unfold update_dialog_history
  repeat' split
  all_goals rfl

theorem stuck_snd_is_processing_message (s : SupervisorState) (now : Nat) (t : String) :
    (is_content_stuck s now t).2.is_processing_message = s.is_processing_message := by
  unfold is_content_stuck
  repeat' split
  all_goals rfl

theorem stuck_snd_processed (s : SupervisorState) (now : Nat) (t : String) :
    (is_content_stuck s now t).2.processed_message_hashes = s.processed_message_hashes := by
  unfold is_content_stuck
  repeat' split
  all_goals rfl

theorem stuck_snd_max_processed (s : SupervisorState) (now : Nat) (t : String) :
    (is_content_stuck s now t).2.max_processed_hashes = s.max_processed_hashes := by
  unfold is_content_stuck
  repeat' split
  all_goals rfl

/-! ## Guard characterizations -/

theorem dup_true_of_flag (s : SupervisorState) (now : Nat) (t : String)
    (h : s.is_processing_message = true) :
    (is_duplicate_processing s now t).1 = true := by
  unfold is_duplicate_processing
  simp [h]

theorem dup_true_of_mem (s : SupervisorState) (now : Nat) (t : String)
    (h : contentHash t ∈ s.processed_message_hashes) :
    (is_duplicate_processing s now t).1 = true := by
  unfold is_duplicate_processing duplicate_tail
  repeat' split
  all_goals simp_all

theorem dup_false_flag (s : SupervisorState) (now : Nat) (t : String)
    (h : (is_duplicate_processing s now t).1 = false) :
    s.is_processing_message = false := by
  by_contra hc
  rw [dup_true_of_flag s now t (by simpa using hc)] at h
  simp at h

theorem dup_false_not_mem (s : SupervisorState) (now : Nat) (t : String)
    (h : (is_duplicate_processing s now t).1 = false) :
    contentHash t ∉ s.processed_message_hashes := by
  intro hmem
  rw [dup_true_of_mem s now t hmem] at h
  simp at h

/-! ## Claim C10: a contending handler call releases the in-flight lock -/

/-- C10: whenever `handle_gpt_content_analysis_intervention` is invoked
while `is_processing_message` is already true, it performs no dispatch for
that invocation, yet on return `is_processing_message` is false: the
function-level `finally` clears a flag this invocation never set, so a
contending call releases the lock on behalf of the holder. -/
theorem C10_contended_clears_lock (s : SupervisorState) (now : Nat)
    (text pm itype : String) (ok : Bool) (h : s.is_processing_message = true) :
    handle_gpt_content_analysis_intervention s now text pm itype ok =
      ({ s with is_processing_message := false }, false) := by
  unfold handle_gpt_content_analysis_intervention
  simp [h]

theorem C10_contended_clears_lock_witness :
    handle_gpt_content_analysis_intervention
        { initState 0 with is_processing_message := true } 5 "abc" "instr" "normal" true =
      ({ { initState 0 with is_processing_message := true } with
           is_processing_message := false }, false) :=
  C10_contended_clears_lock { initState 0 with is_processing_message := true }
    5 "abc" "instr" "normal" true rfl

/-! ## Claim C9: invalid snapshots mutate nothing and are never stuck -/

/-- C9: a snapshot text failing `is_valid_content` leaves the whole
supervisor state — in particular the dialog history, the repetition
counter and the stability timer — unchanged for that tick, and
`is_content_stuck` is false for such a text in every state. -/
theorem C9_invalid_no_update (s : SupervisorState) (now : Nat)
    (text pm : String) (ok : Bool) (s2 : SupervisorState) (now2 : Nat)
    (h : is_valid_content text = false) :
    monitoring_cycle s now text pm ok = (s, TickOutcome.invalid) ∧
    (is_content_stuck s2 now2 text).1 = false := by
  constructor
  · unfold monitoring_cycle
    simp [h]
  · unfold is_content_stuck
    simp [h]

theorem C9_invalid_no_update_witness :
    monitoring_cycle (initState 0) 40 "dark_content detected here" "instr" true =
      (initState 0, TickOutcome.invalid) ∧
    (is_content_stuck (initState 3) 77 "dark_content detected here").1 = false :=
  C9_invalid_no_update (initState 0) 40 "dark_content detected here" "instr" true
    (initState 3) 77 (by decide)

/-! ## Claim C2: the stuck threshold -/

/-- C2 counterexample: the claim says that with no busy marker, 31 seconds
of identical valid text gives `stuck = true`; the code's general threshold
is `stuck_detection_time = 50` (main.py:65), not 30, so at 31 seconds the
classification is still false. -/
theorem C2_thirty_second_counterexample :
    is_valid_content "hello world test text" = true ∧
    strContains (lowerStr "hello world test text") "generating" = false ∧
    (is_content_stuck
        { initState 0 with last_dialog_content := "hello world test text" }
        31 "hello world test text").1 = false := by
  decide

/-- C2 amended: for every valid snapshot text identical to the previously
stored text, `is_content_stuck` is true exactly when the stable duration
exceeds 60 seconds if the text contains the busy marker "generating" and
`stuck_detection_time` (default 50, not 30) otherwise. -/
theorem C2_stuck_threshold (s : SupervisorState) (now : Nat) (text : String)
    (hv : is_valid_content text = true) (he : text = s.last_dialog_content) :
    ((is_content_stuck s now text).1 = true ↔
      (if strContains (lowerStr text) "generating" then 60 else s.stuck_detection_time) <
        now - s.last_content_change_time) := by
  unfold is_content_stuck
  simp [hv, ← he]

/-- With the default thresholds, 49 seconds of identical non-busy text is
not stuck and 51 seconds is; 59 seconds of busy text is not stuck and 61
seconds is. -/
theorem C2_stuck_threshold_witness :
    ((is_content_stuck
        { initState 0 with last_dialog_content := "hello world test text" }
        49 "hello world test text").1 = true ↔ 50 < 49) ∧
    ((is_content_stuck
        { initState 0 with last_dialog_content := "hello world test text" }
        51 "hello world test text").1 = true ↔ 50 < 51) ∧
    ((is_content_stuck
        { initState 0 with last_dialog_content := "Generating response please wait" }
        59 "Generating response please wait").1 = true ↔ 60 < 59) ∧
    ((is_content_stuck
        { initState 0 with last_dialog_content := "Generating response please wait" }
        61 "Generating response please wait").1 = true ↔ 60 < 61) := by
  have hng : strContains (lowerStr "hello world test text") "generating" = false := by
    decide
  have hg : strContains (lowerStr "Generating response please wait") "generating" = true := by
    decide
  refine ⟨?_, ?_, ?_, ?_⟩
  · simpa [initState, hng] using C2_stuck_threshold
      { initState 0 with last_dialog_content := "hello world test text" }
      49 "hello world test text" (by decide) rfl
  · simpa [initState, hng] using C2_stuck_threshold
      { initState 0 with last_dialog_content := "hello world test text" }
      51 "hello world test text" (by decide) rfl
  · simpa [initState, hg] using C2_stuck_threshold
      { initState 0 with last_dialog_content := "Generating response please wait" }
      59 "Generating response please wait" (by decide) rfl
  · simpa [initState, hg] using C2_stuck_threshold
      { initState 0 with last_dialog_content := "Generating response please wait" }
      61 "Generating response please wait" (by decide) rfl

/-! ## Claim C8: fingerprint invariance -/

/-- C8: any two texts that agree after removing all whitespace and
lower-casing get the same content hash, for an arbitrary digest function —
hence also for the real MD5; the fingerprint is therefore invariant under
changes of letter case and whitespace. -/
theorem C8_hash_normalization (md5 : String → String) (t1 t2 : String)
    (h : normalizeForHash t1 = normalizeForHash t2) :
    calculate_content_hash md5 t1 = calculate_content_hash md5 t2 := by
  unfold calculate_content_hash
  rw [h]

theorem C8_hash_normalization_witness :
    normalizeForHash "A b C" = normalizeForHash "abC " ∧
    calculate_content_hash (fun d => d ++ "#") "A b C" =
      calculate_content_hash (fun d => d ++ "#") "abC " :=
  ⟨by decide, C8_hash_normalization (fun d => d ++ "#") "A b C" "abC " (by decide)⟩

/-! ## Claim C6: completed versus busy priority -/

/-- C6 counterexample: on the text "Task is done, still generating output"
the completed classifier fires (completion phrase "done") and the busy
classifier fires ("generating"), yet the tick ends idle with no
intervention: only the review-changes family pre-empts busy; a
completion-phrase "completed" signal does not. -/
theorem C6_busy_preempts_counterexample :
    is_cursor_response_finished "Task is done, still generating output" = true ∧
    is_cursor_processing_error (initState 0) "Task is done, still generating output" = true ∧
    has_review_changes_signal "Task is done, still generating output" = false ∧
    (monitoring_cycle (initState 0) 100 "Task is done, still generating output"
        "Please continue implementing the next feature" true).2 = TickOutcome.idle := by
  decide

/-- C6 amended: in the decision ladder of `monitoring_cycle`, a review
signal always yields an intervention (pre-empting busy), while with no
review signal the busy classification pre-empts every other completed
signal: the tick stays idle. -/
theorem C6_priority (has_review generating stuck finished : Bool) :
    (has_review = true →
      decide_intervention has_review generating stuck finished =
        some "review_changes_completed") ∧
    (has_review = false → generating = true →
      decide_intervention has_review generating stuck finished = none) := by
  constructor
  · intro h
    simp [decide_intervention, h]
  · intro h hg
    simp [decide_intervention, h, hg]

theorem C6_priority_witness :
    decide_intervention true true false true = some "review_changes_completed" ∧
    decide_intervention false true false true = none :=
  ⟨(C6_priority true true false true).1 rfl,
   (C6_priority false true false true).2 rfl rfl⟩

/-! ## Claim C7: the similarity function -/

/-- The claim's reading of the similarity numerator: the number of
positions `i < min (|t1|, |t2|)` at which the two texts hold equal
characters. -/
def posEqCount (t1 t2 : String) : Nat :=
  ((List.range (min t1.length t2.length)).filter
    (fun i => t1.toList.getD i ' ' == t2.toList.getD i ' ')).length

theorem length_filter_map_succ (p : Nat → Bool) (l : List Nat) :
    ((l.map Nat.succ).filter p).length = (l.filter (fun i => p (i + 1))).length := by
  induction l with
  | nil => rfl
  | cons a l ih =>
      simp only [List.map_cons, List.filter_cons, Nat.succ_eq_add_one]
      cases h : p (a + 1) <;> simp [h, ih]

theorem zipCount_eq_posCount (l1 l2 : List Char) :
    ((l1.zip l2).filter (fun p => p.1 == p.2)).length =
      ((List.range (min l1.length l2.length)).filter
        (fun i => l1.getD i ' ' == l2.getD i ' ')).length := by
  induction l1 generalizing l2 with
  | nil => simp
  | cons a l1 ih =>
      cases l2 with
      | nil => simp
      | cons b l2 =>
          simp only [List.zip_cons_cons, List.filter_cons, List.length_cons,
            Nat.succ_min_succ, List.range_succ_eq_map, List.getD_cons_zero]
          by_cases hab : a = b
          · subst hab
            simp only [beq_self_eq_true, if_true, List.length_cons]
            rw [length_filter_map_succ]
            simp only [List.getD_cons_succ]
            rw [ih]
          · have hf : (a == b) = false := beq_eq_false_iff_ne.mpr hab
            simp only [hf, Bool.false_eq_true, if_false]
            rw [length_filter_map_succ]
            simp only [List.getD_cons_succ]
            exact ih l2

theorem zipCount_comm (l1 l2 : List Char) :
    ((l1.zip l2).filter (fun p => p.1 == p.2)).length =
      ((l2.zip l1).filter (fun p => p.1 == p.2)).length := by
  induction l1 generalizing l2 with
  | nil => simp
  | cons a l1 ih =>
      cases l2 with
      | nil => simp
      | cons b l2 =>
          simp only [List.zip_cons_cons, List.filter_cons]
          have hab : (a == b) = (b == a) := by
            rcases eq_or_ne a b with h | h
            · subst h; rfl
            · simp [h, Ne.symm h]
          rw [hab]
          cases h : (b == a) <;> simp [h, ih]

/-- C7: `calculate_content_similarity` returns the number of positions
`i < min (|t1|, |t2|)` with equal characters divided by `max (|t1|, |t2|)`,
returns 0 when either text is empty, and is symmetric. -/
theorem C7_similarity_spec (t1 t2 : String) :
    (t1.length = 0 ∨ t2.length = 0 → calculate_content_similarity t1 t2 = 0) ∧
    (t1.length ≠ 0 → t2.length ≠ 0 →
      calculate_content_similarity t1 t2 =
        (posEqCount t1 t2 : ℚ) / ((max t1.length t2.length : Nat) : ℚ)) ∧
    calculate_content_similarity t1 t2 = calculate_content_similarity t2 t1 := by
  refine ⟨?_, ?_, ?_⟩
  · intro h
    unfold calculate_content_similarity
    rcases h with h | h <;> simp [h]
  · intro h1 h2
    have hz : ((t1.toList.zip t2.toList).filter (fun p => p.1 == p.2)).length =
        posEqCount t1 t2 := zipCount_eq_posCount t1.toList t2.toList
    unfold calculate_content_similarity
    rw [if_neg (by simp [h1, h2]), if_neg (by simp [h1]), if_neg (by simp [h1, h2]), hz,
      Rat.mkRat_eq_divInt, Rat.divInt_eq_div]
    norm_num
  · have hc := zipCount_comm t1.data t2.data
    unfold calculate_content_similarity
    by_cases e1 : t1.length = 0 <;> by_cases e2 : t2.length = 0 <;>
      simp [e1, e2, hc, Nat.max_comm t1.length t2.length]

theorem C7_similarity_spec_witness :
    calculate_content_similarity "" "abc" = 0 ∧
    calculate_content_similarity "abc" "abd" =
      (posEqCount "abc" "abd" : ℚ) / ((max "abc".length "abd".length : Nat) : ℚ) ∧
    calculate_content_similarity "abc" "abd" = calculate_content_similarity "abd" "abc" :=
  ⟨(C7_similarity_spec "" "abc").1 (Or.inl rfl),
   (C7_similarity_spec "abc" "abd").2.1 (by decide) (by decide),
   (C7_similarity_spec "abc" "abd").2.2⟩

/-! ## Claim C5: echo immunity -/

/-- C5: whenever the last sent instruction is longer than 20 characters
and occurs verbatim inside the snapshot text, the suppression check
returns true, and (as long as the forced-progress valve is not due) the
tick dispatches no intervention — whatever the text would otherwise
classify as. -/
theorem C5_echo_immunity (s : SupervisorState) (now : Nat) (text pm : String)
    (ok : Bool)
    (hlen : 20 < s.last_instruction_sent.length)
    (hsub : strContains text s.last_instruction_sent = true)
    (hstuck : now - s.last_progress_time ≤ s.max_stuck_time) :
    (is_duplicate_processing s now text).1 = true ∧
    TickOutcome.firesIntervention (monitoring_cycle s now text pm ok).2 = false := by
  have hdup : (is_duplicate_processing s now text).1 = true := by
    unfold is_duplicate_processing duplicate_tail
    repeat' split
    all_goals simp_all
  refine ⟨hdup, ?_⟩
  unfold monitoring_cycle
  by_cases hv : is_valid_content text
  · rcases hdp : is_duplicate_processing s now text with ⟨b, s1⟩
    have hb : b = true := by rw [hdp] at hdup; exact hdup
    subst hb
    have hpr : s1.last_progress_time = s.last_progress_time := by
      have h := dup_snd_last_progress_time s now text
      rw [hdp] at h; exact h
    have hms : s1.max_stuck_time = s.max_stuck_time := by
      have h := dup_snd_max_stuck_time s now text
      rw [hdp] at h; exact h
    have hno : ¬ (s1.max_stuck_time < now - s1.last_progress_time) := by
      rw [hpr, hms]; omega
    simp [hv, hdp, hno, TickOutcome.firesIntervention]
  · simp [Bool.not_eq_true] at hv
    simp [hv, TickOutcome.firesIntervention]

theorem C5_echo_immunity_witness :
    is_cursor_response_finished "Please continue with the next feature - done" = true ∧
    ((is_duplicate_processing
        { initState 0 with
            last_instruction_sent := "Please continue with the next feature" }
        100 "Please continue with the next feature - done").1 = true ∧
     TickOutcome.firesIntervention
       (monitoring_cycle
          { initState 0 with
              last_instruction_sent := "Please continue with the next feature" }
          100 "Please continue with the next feature - done" "instr" true).2 = false) :=
  ⟨by decide,
   C5_echo_immunity
     { initState 0 with
         last_instruction_sent := "Please continue with the next feature" }
     100 "Please continue with the next feature - done" "instr" true
     (by decide) (by decide) (by decide)⟩

/-! ## Claim C4: the gate order of the suppression check -/

/-- The six gates, in order, exactly as the claim lists them: in-flight
flag, cooldown, processed fingerprint, repetition cap, echo, similarity.
Under the claim the first true gate decides the result and a text passing
all six is not suppressed. -/
def duplicate_gates_claimed (s : SupervisorState) (now : Nat) (text : String) : Bool :=
  s.is_processing_message ||
  decide (now - s.last_instruction_time < s.instruction_cooldown) ||
  decide (contentHash text ∈ s.processed_message_hashes) ||
  (match lookupCount s.content_repetition_count text with
   | some n => decide (s.max_same_content_processing < n + 1)
   | none => false) ||
  (decide (20 < s.last_instruction_sent.length) &&
     strContains text s.last_instruction_sent) ||
  decide (mkRat 99 100 < calculate_content_similarity text s.last_dialog_content)

/-- The gate cascade the code actually evaluates: the claim's six gates
plus the product-manager self-reply heuristic between the echo and
similarity gates, with the similarity gate consulted only when a last
processed hash has been recorded. -/
def duplicate_gates_actual (s : SupervisorState) (now : Nat) (text : String) : Bool :=
  s.is_processing_message ||
  decide (now - s.last_instruction_time < s.instruction_cooldown) ||
  decide (contentHash text ∈ s.processed_message_hashes) ||
  (match lookupCount s.content_repetition_count text with
   | some n => decide (s.max_same_content_processing < n + 1)
   | none => false) ||
  (decide (20 < s.last_instruction_sent.length) &&
     strContains text s.last_instruction_sent) ||
  is_pm_reply text ||
  (s.last_processed_content_hash.isSome &&
     decide (mkRat 99 100 < calculate_content_similarity text s.last_dialog_content))

/-- C4 counterexample: on the short confirmation text "收到，我明白了" in the
fresh state, every one of the claim's six gates is false, yet
`is_duplicate_processing` returns true — the code holds a seventh gate
(the self-reply heuristic) that the claim's list omits. -/
theorem C4_gate_list_counterexample :
    duplicate_gates_claimed (initState 0) 100 "收到，我明白了" = false ∧
    (is_duplicate_processing (initState 0) 100 "收到，我明白了").1 = true := by
  constructor
  · decide
  · decide

/-- C4 amended: the suppression verdict equals the ordered short-circuit
cascade of seven gates — in-flight flag, cooldown, processed fingerprint,
repetition cap, echo, the self-reply heuristic, and (only when a last
processed hash exists) similarity above 99/100. -/
theorem C4_gate_order (s : SupervisorState) (now : Nat) (text : String) :
    (is_duplicate_processing s now text).1 = duplicate_gates_actual s now text := by
  unfold is_duplicate_processing duplicate_tail duplicate_gates_actual
  repeat' split
  all_goals simp_all

/-! ## Marking and dispatch lemmas -/

theorem mark_mem (s : SupervisorState) (t : String)
    (hnm : contentHash t ∉ s.processed_message_hashes)
    (hm : 2 ≤ s.max_processed_hashes) :
    contentHash t ∈ (mark_content_as_processed s t).processed_message_hashes := by
  unfold mark_content_as_processed
  simp only [hnm, if_false]
  split
  · rw [List.drop_append_of_le_length (by simp; omega)]
    simp
  · simp

theorem handle_mem (s : SupervisorState) (now : Nat) (text pm itype : String)
    (ok : Bool)
    (hflag : s.is_processing_message = false)
    (hnm : contentHash text ∉ s.processed_message_hashes)
    (hm : 2 ≤ s.max_processed_hashes) :
    contentHash text ∈
      (handle_gpt_content_analysis_intervention s now text pm itype
        ok).1.processed_message_hashes ∧
    (handle_gpt_content_analysis_intervention s now text pm itype
        ok).1.is_processing_message = false := by
  have hmark : contentHash text ∈
      (mark_content_as_processed { s with is_processing_message := true }
        text).processed_message_hashes :=
    mark_mem { s with is_processing_message := true } text hnm hm
  unfold handle_gpt_content_analysis_intervention
  simp only [hflag, Bool.false_eq_true, if_false]
  cases ok <;> simp [hmark]

theorem handle_after_reset (s2 : SupervisorState) (now : Nat)
    (text pm itype : String) (ok : Bool)
    (hflag : s2.is_processing_message = false)
    (hproc : s2.processed_message_hashes = [])
    (hcrc : s2.content_repetition_count = [])
    (hm : 1 ≤ s2.max_processed_hashes) :
    (handle_gpt_content_analysis_intervention s2 now text pm itype
        ok).1.content_repetition_count = [] ∧
    (handle_gpt_content_analysis_intervention s2 now text pm itype
        ok).1.is_processing_message = false ∧
    (handle_gpt_content_analysis_intervention s2 now text pm itype
        ok).1.processed_message_hashes = [contentHash text] := by
  have hlt : ¬ (s2.max_processed_hashes < 1) := by omega
  unfold handle_gpt_content_analysis_intervention mark_content_as_processed
  simp only [hflag, Bool.false_eq_true, if_false]
  cases ok <;> simp [hproc, hcrc, hlt]

/-! ## Claim C3: the forced-progress valve -/

/-- C3: on a tick suppressed by `is_duplicate_processing`, if the time
since the last recorded progress exceeds `max_stuck_time`, the tick clears
the processed-fingerprint set and the repetition counter, forces the
in-flight flag to false and issues exactly one forced intervention (whose
own marking leaves exactly the current text's fingerprint in the set); if
the suppressed duration is within `max_stuck_time`, no intervention of any
kind happens on the tick. -/
theorem C3_forced_progress (s : SupervisorState) (now : Nat) (text pm : String)
    (ok : Bool)
    (hv : is_valid_content text = true)
    (hdup : (is_duplicate_processing s now text).1 = true)
    (hm : 1 ≤ s.max_processed_hashes) :
    (s.max_stuck_time < now - s.last_progress_time →
       (monitoring_cycle s now text pm ok).2 = TickOutcome.forced ∧
       (monitoring_cycle s now text pm ok).1.content_repetition_count = [] ∧
       (monitoring_cycle s now text pm ok).1.is_processing_message = false ∧
       (monitoring_cycle s now text pm ok).1.processed_message_hashes =
         [contentHash text]) ∧
    (now - s.last_progress_time ≤ s.max_stuck_time →
       (monitoring_cycle s now text pm ok).2 = TickOutcome.suppressed) := by
  rcases hdp : is_duplicate_processing s now text with ⟨b, s1⟩
  have hb : b = true := by rw [hdp] at hdup; exact hdup
  subst hb
  have hpr : s1.last_progress_time = s.last_progress_time := by
    have h := dup_snd_last_progress_time s now text
    rw [hdp] at h; exact h
  have hms : s1.max_stuck_time = s.max_stuck_time := by
    have h := dup_snd_max_stuck_time s now text
    rw [hdp] at h; exact h
  have hmp : s1.max_processed_hashes = s.max_processed_hashes := by
    have h := dup_snd_max_processed s now text
    rw [hdp] at h; exact h
  constructor
  · intro hgt
    have hcond : s1.max_stuck_time < now - s1.last_progress_time := by
      rw [hpr, hms]; exact hgt
    have hreset := handle_after_reset
      { s1 with processed_message_hashes := []
                content_repetition_count := []
                is_processing_message := false
                last_progress_time := now }
      now text pm "force_progress" ok rfl rfl rfl (by simpa [hmp] using hm)
    have hmc : monitoring_cycle s now text pm ok =
        ((handle_gpt_content_analysis_intervention
            { s1 with processed_message_hashes := []
                      content_repetition_count := []
                      is_processing_message := false
                      last_progress_time := now }
            now text pm "force_progress" ok).1, TickOutcome.forced) := by
      unfold monitoring_cycle
      simp [hv, hdp, hcond]
    rw [hmc]
    exact ⟨rfl, hreset.1, hreset.2.1, hreset.2.2⟩
  · intro hle
    have hcond : ¬ (s1.max_stuck_time < now - s1.last_progress_time) := by
      rw [hpr, hms]; omega
    unfold monitoring_cycle
    simp [hv, hdp, hcond]

theorem C3_forced_progress_witness :
    ((monitoring_cycle
        { initState 0 with
            processed_message_hashes := [contentHash "task done, waiting for you"] }
        130 "task done, waiting for you" "Please continue with the plan" true).2 =
          TickOutcome.forced ∧
     (monitoring_cycle
        { initState 0 with
            processed_message_hashes := [contentHash "task done, waiting for you"] }
        130 "task done, waiting for you" "Please continue with the plan"
        true).1.content_repetition_count = [] ∧
     (monitoring_cycle
        { initState 0 with
            processed_message_hashes := [contentHash "task done, waiting for you"] }
        130 "task done, waiting for you" "Please continue with the plan"
        true).1.is_processing_message = false ∧
     (monitoring_cycle
        { initState 0 with
            processed_message_hashes := [contentHash "task done, waiting for you"] }
        130 "task done, waiting for you" "Please continue with the plan"
        true).1.processed_message_hashes =
       [contentHash "task done, waiting for you"]) ∧
    ((monitoring_cycle
        { initState 0 with
            processed_message_hashes := [contentHash "task done, waiting for you"] }
        110 "task done, waiting for you" "Please continue with the plan" true).2 =
          TickOutcome.suppressed) :=
  ⟨(C3_forced_progress
      { initState 0 with
          processed_message_hashes := [contentHash "task done, waiting for you"] }
      130 "task done, waiting for you" "Please continue with the plan" true
      (by decide) (by decide) (by decide)).1 (by decide),
   (C3_forced_progress
      { initState 0 with
          processed_message_hashes := [contentHash "task done, waiting for you"] }
      110 "task done, waiting for you" "Please continue with the plan" true
      (by decide) (by decide) (by decide)).2 (by decide)⟩

/-! ## Claim C1: repeated identical text and the suppression state -/

/-- C1 counterexample: the claim says a fixed text repeated over N = 2
cooldown-respecting valid ticks passes the suppression check on both ticks
and fires two interventions.  In fact the first intervention marks the
text's fingerprint processed, so the second tick is suppressed: only one
intervention fires. -/
theorem C1_repeat_counterexample :
    (monitoring_cycle (initState 0) 100 "task done, waiting for you"
        "Please continue implementing the next feature" true).2 =
      TickOutcome.intervened "response_completed" ∧
    (monitoring_cycle
        (monitoring_cycle (initState 0) 100 "task done, waiting for you"
          "Please continue implementing the next feature" true).1
        110 "task done, waiting for you"
        "Please continue implementing the next feature" true).2 =
      TickOutcome.suppressed := by
  constructor
  · decide
  · decide

/-- C1 amended: once a tick fires a classification-driven intervention on
a text, that text's fingerprint is in the processed set, and every later
tick with the same text — cooldown respected or not — is suppressed with
zero interventions (as long as the forced-progress valve is not due), until
the suppression state is cleared.  The repetition cap therefore never
grants a second or third intervention to an unchanged text. -/
theorem C1_single_intervention_then_suppressed (s : SupervisorState)
    (now now2 : Nat) (text pm pm2 : String) (ok ok2 : Bool) (r : String)
    (hm : 2 ≤ s.max_processed_hashes)
    (hrun : (monitoring_cycle s now text pm ok).2 = TickOutcome.intervened r)
    (hstuck2 : now2 - (monitoring_cycle s now text pm ok).1.last_progress_time ≤
        (monitoring_cycle s now text pm ok).1.max_stuck_time) :
    contentHash text ∈ (monitoring_cycle s now text pm ok).1.processed_message_hashes ∧
    (monitoring_cycle (monitoring_cycle s now text pm ok).1 now2 text pm2 ok2).2 =
      TickOutcome.suppressed := by
  by_cases hv : is_valid_content text
  case neg =>
    rw [Bool.not_eq_true] at hv
    unfold monitoring_cycle at hrun
    simp [hv] at hrun
  case pos =>
    rcases hdp : is_duplicate_processing s now text with ⟨b, s1⟩
    cases b
    case true =>
      unfold monitoring_cycle at hrun
      rw [hv] at hrun
      simp only [hdp, Bool.not_true, Bool.false_eq_true, if_false] at hrun
      split at hrun <;> simp at hrun
    case false =>
      by_cases hss : is_substantially_same_content s1 text
      case pos =>
        unfold monitoring_cycle at hrun
        rw [hv] at hrun
        simp only [hdp, hss, Bool.not_true, Bool.false_eq_true, if_false,
          if_true] at hrun
        split at hrun <;> simp at hrun
      case neg =>
        rcases hst : is_content_stuck (update_dialog_history s1 now text) now text
          with ⟨stk, s3⟩
        rcases hdi : decide_intervention (has_review_changes_signal text)
            (is_cursor_processing_error (update_dialog_history s1 now text) text)
            stk (is_cursor_response_finished text) with _ | reason
        case none =>
          unfold monitoring_cycle at hrun
          rw [hv] at hrun
          simp [hdp, hss, hst, hdi] at hrun
        case some =>
          have hmc : monitoring_cycle s now text pm ok =
              ((handle_gpt_content_analysis_intervention s3 now text pm reason
                  ok).1, TickOutcome.intervened reason) := by
            unfold monitoring_cycle
            simp [hv, hdp, hss, hst, hdi]
          have hflag1 : s1.is_processing_message = false := by
            have ha := dup_false_flag s now text (by rw [hdp])
            have hb := dup_snd_is_processing_message s now text
            rw [hdp] at hb
            rw [hb, ha]
          have hflag3 : s3.is_processing_message = false := by
            have hc := stuck_snd_is_processing_message
              (update_dialog_history s1 now text) now text
            rw [hst] at hc
            rw [hc, udh_is_processing_message, hflag1]
          have hproc1 : s1.processed_message_hashes = s.processed_message_hashes := by
            have hb := dup_snd_processed s now text
            rw [hdp] at hb
            exact hb
          have hproc3 : s3.processed_message_hashes = s.processed_message_hashes := by
            have hc := stuck_snd_processed (update_dialog_history s1 now text) now text
            rw [hst] at hc
            rw [hc, udh_processed, hproc1]
          have hnm3 : contentHash text ∉ s3.processed_message_hashes := by
            rw [hproc3]
            exact dup_false_not_mem s now text (by rw [hdp])
          have hm3 : 2 ≤ s3.max_processed_hashes := by
            have hc := stuck_snd_max_processed (update_dialog_history s1 now text) now text
            rw [hst] at hc
            rw [hc, udh_max_processed]
            have hb := dup_snd_max_processed s now text
            rw [hdp] at hb
            rw [hb]
            exact hm
          obtain ⟨hmem, hflagEnd⟩ :=
            handle_mem s3 now text pm reason ok hflag3 hnm3 hm3
          rw [hmc] at hstuck2 ⊢
          dsimp only at hstuck2 ⊢
          refine ⟨hmem, ?_⟩
          rcases hdp2 : is_duplicate_processing
              (handle_gpt_content_analysis_intervention s3 now text pm reason ok).1
              now2 text with ⟨b2, s1'⟩
          have hb2 : b2 = true := by
            have h2 := dup_true_of_mem
              (handle_gpt_content_analysis_intervention s3 now text pm reason ok).1
              now2 text hmem
            rw [hdp2] at h2
            exact h2
          subst hb2
          have hpr2 : s1'.last_progress_time =
              (handle_gpt_content_analysis_intervention s3 now text pm reason
                ok).1.last_progress_time := by
            have h2 := dup_snd_last_progress_time
              (handle_gpt_content_analysis_intervention s3 now text pm reason ok).1
              now2 text
            rw [hdp2] at h2
            exact h2
          have hms2 : s1'.max_stuck_time =
              (handle_gpt_content_analysis_intervention s3 now text pm reason
                ok).1.max_stuck_time := by
            have h2 := dup_snd_max_stuck_time
              (handle_gpt_content_analysis_intervention s3 now text pm reason ok).1
              now2 text
            rw [hdp2] at h2
            exact h2
          have hno : ¬ (s1'.max_stuck_time < now2 - s1'.last_progress_time) := by
            rw [hpr2, hms2]
            omega
          unfold monitoring_cycle
          simp [hv, hdp2, hno]

theorem C1_single_intervention_then_suppressed_witness :
    contentHash "task done, waiting for you" ∈
      (monitoring_cycle (initState 0) 100 "task done, waiting for you"
        "Please continue implementing the next feature"
        true).1.processed_message_hashes ∧
    (monitoring_cycle
        (monitoring_cycle (initState 0) 100 "task done, waiting for you"
          "Please continue implementing the next feature" true).1
        110 "task done, waiting for you"
        "Please continue implementing the next feature" true).2 =
      TickOutcome.suppressed :=
  C1_single_intervention_then_suppressed (initState 0) 100 110
    "task done, waiting for you" "Please continue implementing the next feature"
    "Please continue implementing the next feature" true true
    "response_completed" (by decide) (by decide) (by decide)

end CursorSupervisor
